import Mathlib

/-!
# OctoDash `OctoPrintSocketService` — verification development

A shallow embedding of `src/app/services/socket/socket.octoprint.service.ts`:
the connection retry counter, the printer/job status normalizers, the event
inference engine, and the three publication subjects. TypeScript numbers are
modelled as `ℚ` (or `ℤ` where the source only rounds/counts), TypeScript
`null`/`undefined` as `Option`, and the mutable service fields as an explicit
`ServiceState` record threaded through step functions.
-/

namespace OctoDash

/-- Modelled from the spec (§3): the `PrinterState` enum from the model layer
(not under `src/`): `enum{connecting, idle, printing, paused, error, ...}`. -/
inductive PrinterState where
  | connecting
  | idle
  | printing
  | paused
  | error
deriving DecidableEq

/-- Modelled from the spec (§3): the `PrinterEvent` enumeration
`{UNKNOWN, CONNECTED, PRINTING, PAUSED, IDLE, CLOSED}` from the model layer. -/
inductive PrinterEvent where
  | UNKNOWN
  | CONNECTED
  | PRINTING
  | PAUSED
  | IDLE
  | CLOSED
deriving DecidableEq

/-- The lower-case name of a `PrinterState` enum case (its TS member name). -/
def printerStateName : PrinterState → String
  | PrinterState.connecting => "connecting"
  | PrinterState.idle => "idle"
  | PrinterState.printing => "printing"
  | PrinterState.paused => "paused"
  | PrinterState.error => "error"

/-- Models the TS reverse enum lookup `PrinterState[label]` used at
line 170 of the service: a member-name string yields the enum case, any
other string yields `undefined` (here `none`). -/
def printerStateLookup (label : String) : Option PrinterState :=
  if label = "connecting" then some PrinterState.connecting
  else if label = "idle" then some PrinterState.idle
  else if label = "printing" then some PrinterState.printing
  else if label = "paused" then some PrinterState.paused
  else if label = "error" then some PrinterState.error
  else none

/-- JS `Math.round`: round half towards positive infinity. -/
def jsRound (q : ℚ) : ℤ := ⌊q + 1 / 2⌋

/-- Whether `pat` is a prefix of `s` (as character lists). -/
def charsStartWith : List Char → List Char → Bool
  | _, [] => true
  | [], _ :: _ => false
  | c :: cs, p :: ps => c = p && charsStartWith cs ps

/-- Replace the first occurrence of `pat` by `rep` in `s` (character lists);
for the non-empty literal patterns the service uses. -/
def replaceFirstChars (s pat rep : List Char) : List Char :=
  match s with
  | [] => []
  | c :: cs =>
    if pat ≠ [] ∧ charsStartWith (c :: cs) pat then rep ++ (c :: cs).drop pat.length
    else c :: replaceFirstChars cs pat rep

/-- JS `String.prototype.replace` with a plain-string pattern replaces only
the first occurrence. -/
def jsReplaceFirst (s pat rep : String) : String :=
  ⟨replaceFirstChars s.data pat.data rep.data⟩

/-- JS `String.prototype.toLowerCase` (character-wise, as for the ASCII
machine-state labels the service receives). -/
def jsToLower (s : String) : String :=
  ⟨s.data.map Char.toLower⟩

/-- JS `String.prototype.trim`. -/
def jsTrim (s : String) : String :=
  ⟨((s.data.dropWhile Char.isWhitespace).reverse.dropWhile Char.isWhitespace).reverse⟩

/-- JS string coercion of a possibly-`undefined` string (as in
`'/' + origin + '/' + path` where the optional chain may yield `undefined`). -/
def jsCoerceStr : Option String → String
  | some s => s
  | none => "undefined"

/-- A bed/hotend temperature reading as stored in `PrinterStatus`. -/
@[ext]
structure TemperatureReading where
  current : ℤ
  set : ℤ
  unit : String
deriving DecidableEq

/-- The printer status record maintained by the service. `status` is an
`Option` because the TS reverse enum lookup can produce `undefined`. -/
@[ext]
structure PrinterStatus where
  status : Option PrinterState
  bed : TemperatureReading
  tool0 : TemperatureReading
  fanSpeed : ℚ
deriving DecidableEq

/-- A value/unit display pair (`timePrinted`, `timeLeft`, `estimatedPrintTime`). -/
@[ext]
structure DurationDisplay where
  value : String
  unit : Option String
deriving DecidableEq

/-- The `zHeight` field: a plain height, or a current/total layer pair when
the DisplayLayerProgress integration is enabled. -/
inductive ZHeight where
  | plain (z : ℚ)
  | layers (current : ℚ) (total : ℚ)
deriving DecidableEq

/-- The job status record maintained by the service. -/
@[ext]
structure JobStatus where
  file : Option String
  fullPath : Option String
  progress : ℤ
  zHeight : ZHeight
  filamentAmount : ℚ
  timePrinted : Option DurationDisplay
  timeLeft : DurationDisplay
  estimatedPrintTime : Option DurationDisplay
  estimatedEndTime : Option String
deriving DecidableEq

/-- External collaborators of the service that live outside `src/`:
the two `ConversionService` methods it calls and the JS `Number` coercion
used on plugin payload strings. The embedding is parametric in them. -/
structure Externals where
  convertSecondsToHours : ℤ → String
  convertFilamentLengthToWeight : ℚ → ℚ
  jsNumber : String → ℚ

/-- The first entry of the `temps` array of a `current` frame. -/
@[ext]
structure TempsSample where
  bedActual : ℚ
  bedTarget : ℚ
  tool0Actual : ℚ
  tool0Target : ℚ
deriving DecidableEq

/-- The fields of an OctoPrint `current` frame that the service reads.
Optional wire fields are `Option`s. -/
@[ext]
structure CurrentFrame where
  temps0 : Option TempsSample
  stateText : String
  jobFileDisplay : Option String
  jobFileOrigin : Option String
  jobFilePath : Option String
  filament : Option (List ℚ)
  completion : ℚ
  printTime : ℤ
  printTimeLeft : Option ℤ
  estimatedPrintTime : Option ℤ
  currentZ : Option ℚ
deriving DecidableEq

/-- The DisplayLayerProgress plugin payload fields the service reads. -/
@[ext]
structure DLPData where
  fanspeed : String
  currentLayer : String
  totalLayer : String
deriving DecidableEq

/-- Model of an rxjs `ReplaySubject` constructed with no buffer-size
argument (an external library primitive): it retains every published value
and re-emits all of them, in publication order, to each new subscriber at
subscription time; `buffer` is that retained history. -/
@[ext]
structure ReplaySubject (α : Type) where
  buffer : List α
deriving DecidableEq

/-- `subject.next(v)`: publish `v` (appended to the replay history). -/
def ReplaySubject.next {α : Type} (r : ReplaySubject α) (v : α) : ReplaySubject α :=
  ⟨r.buffer ++ [v]⟩

/-- The values delivered immediately to a subscriber that subscribes now:
for a no-argument `ReplaySubject`, the whole publication history. -/
def ReplaySubject.subscribeDelivers {α : Type} (r : ReplaySubject α) : List α :=
  r.buffer

/-- The mutable fields of `OctoPrintSocketService`. -/
@[ext]
structure ServiceState where
  fastInterval : ℕ
  printerStatusSubject : ReplaySubject PrinterStatus
  jobStatusSubject : ReplaySubject JobStatus
  eventSubject : ReplaySubject PrinterEvent
  printerStatus : PrinterStatus
  jobStatus : JobStatus
  lastState : PrinterEvent
deriving DecidableEq

/-- `initPrinterStatus()` (lines 57–72): the initial printer status record;
`dlp` is `configService.isDisplayLayerProgressEnabled()`. -/
def initPrinterStatus (dlp : Bool) : PrinterStatus :=
  { status := some PrinterState.connecting
    bed := { current := 0, set := 0, unit := "°C" }
    tool0 := { current := 0, set := 0, unit := "°C" }
    fanSpeed := if dlp then 0 else -1 }

/-- `initJobStatus()` (lines 74–89): the initial job status record. -/
def initJobStatus (dlp : Bool) : JobStatus :=
  { file := none
    fullPath := none
    progress := 0
    zHeight := if dlp then ZHeight.layers 0 (-1) else ZHeight.plain 0
    filamentAmount := 0
    timePrinted := none
    timeLeft := { value := "---", unit := none }
    estimatedPrintTime := none
    estimatedEndTime := none }

/-- The state right after the constructor (lines 34–43): three fresh
`ReplaySubject`s and a zero retry counter. The TS constructor leaves the
three status fields `undefined` until `connect()` assigns them; they are
given their `connect()`-time initial values here as placeholders, and every
trace considered below starts with a `connect()`. -/
def mkService (dlp : Bool) : ServiceState :=
  { fastInterval := 0
    printerStatusSubject := ⟨[]⟩
    jobStatusSubject := ⟨[]⟩
    eventSubject := ⟨[]⟩
    printerStatus := initPrinterStatus dlp
    jobStatus := initJobStatus dlp
    lastState := PrinterEvent.UNKNOWN }

/-- `connect()` (lines 47–55): re-initialize both status records and the
last event; the retry counter and the subjects are untouched. -/
def connectStep (dlp : Bool) (s : ServiceState) : ServiceState :=
  { s with
    printerStatus := initPrinterStatus dlp
    jobStatus := initJobStatus dlp
    lastState := PrinterEvent.UNKNOWN }

/-- The delay (ms) `tryConnect` passes to `setTimeout` on a credential-fetch
failure (line 99): `this.fastInterval < 6 ? 5000 : 15000`. -/
def credFailDelay (s : ServiceState) : ℕ :=
  if s.fastInterval < 6 then 5000 else 15000

/-- The state change of one credential-fetch failure (line 100):
`this.fastInterval += 1`. -/
def credFailStep (s : ServiceState) : ServiceState :=
  { s with fastInterval := s.fastInterval + 1 }

/-- The delays of the next `n` consecutive credential-fetch failures
starting from state `s` (delay read before the counter increments). -/
def failureDelays (s : ServiceState) : ℕ → List ℕ
  | 0 => []
  | n + 1 => credFailDelay s :: failureDelays (credFailStep s) n

/-- The `switch` of `extractPrinterEvent` (lines 264–288): raw event type
string to new `PrinterEvent`; `none` models falling through to `default`
with `newState` left `undefined`. -/
def eventFromType (t : String) : Option PrinterEvent :=
  if t = "PrintStarted" then some PrinterEvent.PRINTING
  else if t = "PrintResumed" then some PrinterEvent.PRINTING
  else if t = "PrintPaused" then some PrinterEvent.PAUSED
  else if t = "PrintFailed" then some PrinterEvent.IDLE
  else if t = "PrintDone" then some PrinterEvent.IDLE
  else if t = "PrintCancelled" then some PrinterEvent.IDLE
  else if t = "Connected" then some PrinterEvent.CONNECTED
  else if t = "Disconnected" then some PrinterEvent.CLOSED
  else if t = "Error" then some PrinterEvent.CLOSED
  else none

/-- `extractPrinterEvent` (lines 261–294): on a recognized type store the
new value in `lastState` and publish it; otherwise do nothing. -/
def extractPrinterEventS (s : ServiceState) (t : String) : ServiceState :=
  match eventFromType t with
  | some e => { s with lastState := e, eventSubject := s.eventSubject.next e }
  | none => s

/-- The pure field updates of `extractPrinterStatus` (lines 158–170): bed
and tool0 readings (rounded) when a temperature sample is present, then the
case-insensitive machine-state lookup. -/
def applyPrinterFields (ps : PrinterStatus) (c : CurrentFrame) : PrinterStatus :=
  let ps1 :=
    match c.temps0 with
    | some t =>
      { ps with
        bed := { current := jsRound t.bedActual, set := jsRound t.bedTarget, unit := "°C" }
        tool0 := { current := jsRound t.tool0Actual, set := jsRound t.tool0Target, unit := "°C" } }
    | none => ps
  { ps1 with status := printerStateLookup (jsToLower c.stateText) }

/-- `extractPrinterStatus` (lines 157–189): update the printer status
record, synthesize a `PrintStarted`/`PrintPaused` event when the machine
state is printing/paused while the last event is still `UNKNOWN`, then
publish the updated record unconditionally. -/
def extractPrinterStatusS (s : ServiceState) (c : CurrentFrame) : ServiceState :=
  let ps := applyPrinterFields s.printerStatus c
  let s1 := { s with printerStatus := ps }
  let s2 :=
    if ps.status = some PrinterState.printing ∧ s1.lastState = PrinterEvent.UNKNOWN then
      extractPrinterEventS s1 "PrintStarted"
    else if ps.status = some PrinterState.paused ∧ s1.lastState = PrinterEvent.UNKNOWN then
      extractPrinterEventS s1 "PrintPaused"
    else s1
  { s2 with printerStatusSubject := s2.printerStatusSubject.next ps }

/-- The display file name of a `current` frame (line 199):
`display?.replace('.gcode', '').replace('.ufp', '')`. -/
def frameFile (c : CurrentFrame) : Option String :=
  c.jobFileDisplay.map (fun d => jsReplaceFirst (jsReplaceFirst d ".gcode" "") ".ufp" "")

/-- `getTotalFilamentWeight` (lines 238–244): sum the tool lengths and
convert to a weight. -/
def getTotalFilamentWeight (ext : Externals) (filament : List ℚ) : ℚ :=
  ext.convertFilamentLengthToWeight (filament.foldl (fun acc l => acc + l) 0)

/-- Zero-pad to (the last) two digits: `('0' + n).slice(-2)`. -/
def pad2 (n : ℕ) : String :=
  let l := '0' :: (Nat.toDigits 10 n)
  ⟨l.drop (l.length - 2)⟩

/-- `calculateEndTime` (lines 246–250): wall clock `now` (seconds) plus the
remaining seconds, formatted `HH:MM` zero-padded. -/
def calculateEndTime (now printTimeLeft : ℤ) : String :=
  let t := (now + printTimeLeft).emod 86400
  pad2 (t / 3600).toNat ++ ":" ++ pad2 ((t % 3600) / 60).toNat

/-- The field assignments of `extractJobStatus` after the new-file reset
check (lines 204–233). JS truthiness makes a present-but-zero
`printTimeLeft`/`estimatedPrintTime`/`currentZ` behave like an absent one. -/
def applyJobFields (ext : Externals) (dlp : Bool) (now : ℤ) (js : JobStatus)
    (c : CurrentFrame) : JobStatus :=
  let js1 :=
    { js with
      file := frameFile c
      fullPath := some ("/" ++ jsCoerceStr c.jobFileOrigin ++ "/" ++ jsCoerceStr c.jobFilePath)
      progress := jsRound c.completion
      timePrinted := some { value := ext.convertSecondsToHours c.printTime, unit := some "h" } }
  let js2 :=
    match c.filament with
    | some f => { js1 with filamentAmount := getTotalFilamentWeight ext f }
    | none => js1
  let js3 :=
    match c.printTimeLeft with
    | some v =>
      if v = 0 then js2
      else
        { js2 with
          timeLeft := { value := ext.convertSecondsToHours v, unit := some "h" }
          estimatedEndTime := some (calculateEndTime now v) }
    | none => js2
  let js4 :=
    match c.estimatedPrintTime with
    | some v =>
      if v = 0 then js3
      else
        { js3 with
          estimatedPrintTime := some { value := ext.convertSecondsToHours v, unit := some "h" } }
    | none => js3
  if dlp then js4
  else
    match c.currentZ with
    | some z => if z = 0 then js4 else { js4 with zHeight := ZHeight.plain z }
    | none => js4

/-- `extractJobStatus` (lines 198–236), as a pure record transformer: if the
frame names a different file than the tracked one, reset to defaults first,
then apply the frame's fields. -/
def extractJobStatus (ext : Externals) (dlp : Bool) (now : ℤ) (js : JobStatus)
    (c : CurrentFrame) : JobStatus :=
  applyJobFields ext dlp now (if js.file ≠ frameFile c then initJobStatus dlp else js) c

/-- `extractJobStatus` at the service level: update the record and publish it. -/
def extractJobStatusS (ext : Externals) (dlp : Bool) (now : ℤ) (s : ServiceState)
    (c : CurrentFrame) : ServiceState :=
  let js := extractJobStatus ext dlp now s.jobStatus c
  { s with jobStatus := js, jobStatusSubject := s.jobStatusSubject.next js }

/-- `extractFanSpeed` (lines 191–194). -/
def extractFanSpeed (ext : Externals) (ps : PrinterStatus) (d : DLPData) : PrinterStatus :=
  { ps with
    fanSpeed :=
      if d.fanspeed = "Off" then 0
      else if d.fanspeed = "-" then 0
      else ext.jsNumber (jsTrim (jsReplaceFirst d.fanspeed "%" "")) }

/-- `extractLayerHeight` (lines 252–257). -/
def extractLayerHeight (ext : Externals) (js : JobStatus) (d : DLPData) : JobStatus :=
  { js with
    zHeight :=
      ZHeight.layers (if d.currentLayer = "-" then 0 else ext.jsNumber d.currentLayer)
        (if d.totalLayer = "-" then 0 else ext.jsNumber d.totalLayer) }

/-- A raw socket frame, discriminated by field presence (`setupSocket`,
lines 119–142); the protocol guarantees the categories are exclusive. -/
inductive RawFrame where
  | current (c : CurrentFrame)
  | event (t : String)
  | plugin (pluginId : String) (data : DLPData)
  | reauth
  | connected
deriving DecidableEq

/-- The frame dispatch of `setupSocket` (lines 119–142). `current` frames
run the printer-status extractor then the job-status extractor; `event`
frames run the event engine; `plugin` frames are filtered by plugin id and
the layer-progress flag; `reauth` and `connected` trigger no state change
in the service fields modelled here. -/
def processFrame (ext : Externals) (dlp : Bool) (s : ServiceState) :
    ℤ × RawFrame → ServiceState
  | (now, RawFrame.current c) => extractJobStatusS ext dlp now (extractPrinterStatusS s c) c
  | (_, RawFrame.event t) => extractPrinterEventS s t
  | (_, RawFrame.plugin pid d) =>
    if pid = "DisplayLayerProgress-websocket-payload" ∧ dlp then
      { s with
        printerStatus := extractFanSpeed ext s.printerStatus d
        jobStatus := extractLayerHeight ext s.jobStatus d }
    else s
  | (_, RawFrame.reauth) => s
  | (_, RawFrame.connected) => s

/-- One observable action on the service: a `connect()` call, a
credential-fetch failure inside `tryConnect`, an inbound frame (tagged with
the wall-clock second it is processed at), or `checkPrinterConnection`
observing a Closed/Error printer (lines 144–153: it publishes
`PrinterEvent.CLOSED` without touching `lastState`). -/
inductive SessionOp where
  | connectOp
  | credFail
  | frame (now : ℤ) (f : RawFrame)
  | connectionCheckClosed
deriving DecidableEq

/-- The state transition of one `SessionOp`. -/
def step (ext : Externals) (dlp : Bool) (s : ServiceState) : SessionOp → ServiceState
  | SessionOp.connectOp => connectStep dlp s
  | SessionOp.credFail => credFailStep s
  | SessionOp.frame now f => processFrame ext dlp s (now, f)
  | SessionOp.connectionCheckClosed =>
    { s with eventSubject := s.eventSubject.next PrinterEvent.CLOSED }

/-- Run a list of session actions from a state. -/
def runOps (ext : Externals) (dlp : Bool) (s : ServiceState) : List SessionOp → ServiceState
  | [] => s
  | op :: ops => runOps ext dlp (step ext dlp s op) ops

/-- Run a list of `current` frames (each with its processing time). -/
def runCurrents (ext : Externals) (dlp : Bool) (s : ServiceState) :
    List (ℤ × CurrentFrame) → ServiceState
  | [] => s
  | (now, c) :: rest => runCurrents ext dlp (processFrame ext dlp s (now, RawFrame.current c)) rest

/-- The number of credential-fetch failures in a list of session actions. -/
def countCredFails : List SessionOp → ℕ
  | [] => 0
  | SessionOp.credFail :: ops => countCredFails ops + 1
  | _ :: ops => countCredFails ops

/-- `getEventSubscribable` (lines 306–308): returns `eventSubject` itself. -/
def getEventSubscribable (s : ServiceState) : ReplaySubject PrinterEvent :=
  s.eventSubject

/-- A concrete instantiation of the external collaborators, used to
evaluate the model on concrete inputs. -/
def demoExt : Externals :=
  { convertSecondsToHours := fun n => String.mk (Nat.toDigits 10 n.natAbs)
    convertFilamentLengthToWeight := fun l => l
    jsNumber := fun _ => 0 }

/-- A concrete `current` frame with every optional field present. -/
def demoFrame : CurrentFrame :=
  { temps0 := some { bedActual := 60, bedTarget := 60, tool0Actual := 210, tool0Target := 215 }
    stateText := "Printing"
    jobFileDisplay := some "benchy.gcode"
    jobFileOrigin := some "local"
    jobFilePath := some "benchy.gcode"
    filament := some [1000]
    completion := 42
    printTime := 600
    printTimeLeft := some 1200
    estimatedPrintTime := some 1800
    currentZ := some 2
    : CurrentFrame }

/-- A concrete `current` frame naming file `B` with every optional field
absent. -/
def demoFrameBare : CurrentFrame :=
  { temps0 := none
    stateText := "Printing"
    jobFileDisplay := some "B"
    jobFileOrigin := some "local"
    jobFilePath := some "B.gcode"
    filament := none
    completion := 10
    printTime := 60
    printTimeLeft := none
    estimatedPrintTime := none
    currentZ := none
    : CurrentFrame }

/-- A concrete `current` frame with a `paused` machine state and no
optional fields. -/
def demoFramePaused : CurrentFrame :=
  { demoFrameBare with stateText := "Paused" }

/-- A freshly connected service (layer-progress disabled). -/
def demoState : ServiceState :=
  connectStep false (mkService false)

/-!
## Helper lemmas
-/

theorem eventFromType_ne_UNKNOWN {t : String} {e : PrinterEvent}
    (h : eventFromType t = some e) : e ≠ PrinterEvent.UNKNOWN := by
  unfold eventFromType at h
  split_ifs at h <;> (injection h with h; subst h; decide)

theorem extractPrinterEventS_some {s : ServiceState} {t : String} {e : PrinterEvent}
    (h : eventFromType t = some e) :
    extractPrinterEventS s t
      = { s with lastState := e, eventSubject := s.eventSubject.next e } := by
  unfold extractPrinterEventS
  rw [h]

theorem extractPrinterEventS_none {s : ServiceState} {t : String}
    (h : eventFromType t = none) : extractPrinterEventS s t = s := by
  unfold extractPrinterEventS
  rw [h]

theorem extractPrinterEventS_fastInterval (s : ServiceState) (t : String) :
    (extractPrinterEventS s t).fastInterval = s.fastInterval := by
  unfold extractPrinterEventS
  cases h : eventFromType t <;> simp

theorem extractPrinterEventS_printerStatus (s : ServiceState) (t : String) :
    (extractPrinterEventS s t).printerStatus = s.printerStatus := by
  unfold extractPrinterEventS
  cases h : eventFromType t <;> simp

theorem extractPrinterEventS_jobStatus (s : ServiceState) (t : String) :
    (extractPrinterEventS s t).jobStatus = s.jobStatus := by
  unfold extractPrinterEventS
  cases h : eventFromType t <;> simp

theorem extractPrinterEventS_printerStatusSubject (s : ServiceState) (t : String) :
    (extractPrinterEventS s t).printerStatusSubject = s.printerStatusSubject := by
  unfold extractPrinterEventS
  cases h : eventFromType t <;> simp

theorem extractPrinterEventS_jobStatusSubject (s : ServiceState) (t : String) :
    (extractPrinterEventS s t).jobStatusSubject = s.jobStatusSubject := by
  unfold extractPrinterEventS
  cases h : eventFromType t <;> simp

theorem extractPrinterEventS_lastState_ne_UNKNOWN {s : ServiceState} (t : String)
    (h : s.lastState ≠ PrinterEvent.UNKNOWN) :
    (extractPrinterEventS s t).lastState ≠ PrinterEvent.UNKNOWN := by
  unfold extractPrinterEventS
  cases he : eventFromType t with
  | none => simpa using h
  | some e => simpa using eventFromType_ne_UNKNOWN he

theorem applyPrinterFields_status (ps : PrinterStatus) (c : CurrentFrame) :
    (applyPrinterFields ps c).status = printerStateLookup (jsToLower c.stateText) := by
  unfold applyPrinterFields
  cases h : c.temps0 <;> simp

theorem applyPrinterFields_idem (ps : PrinterStatus) (c : CurrentFrame) :
    applyPrinterFields (applyPrinterFields ps c) c = applyPrinterFields ps c := by
  unfold applyPrinterFields
  cases h : c.temps0 <;> simp

theorem extractPrinterStatusS_fastInterval (s : ServiceState) (c : CurrentFrame) :
    (extractPrinterStatusS s c).fastInterval = s.fastInterval := by
  unfold extractPrinterStatusS
  dsimp only
  split_ifs <;> simp [extractPrinterEventS_fastInterval]

theorem extractPrinterStatusS_jobStatus (s : ServiceState) (c : CurrentFrame) :
    (extractPrinterStatusS s c).jobStatus = s.jobStatus := by
  unfold extractPrinterStatusS
  dsimp only
  split_ifs <;> simp [extractPrinterEventS_jobStatus]

theorem extractPrinterStatusS_jobStatusSubject (s : ServiceState) (c : CurrentFrame) :
    (extractPrinterStatusS s c).jobStatusSubject = s.jobStatusSubject := by
  unfold extractPrinterStatusS
  dsimp only
  split_ifs <;> simp [extractPrinterEventS_jobStatusSubject]

theorem extractPrinterStatusS_printerStatus (s : ServiceState) (c : CurrentFrame) :
    (extractPrinterStatusS s c).printerStatus = applyPrinterFields s.printerStatus c := by
  unfold extractPrinterStatusS
  dsimp only
  split_ifs <;> simp [extractPrinterEventS_printerStatus]

theorem extractPrinterStatusS_printerStatusSubject (s : ServiceState) (c : CurrentFrame) :
    (extractPrinterStatusS s c).printerStatusSubject
      = s.printerStatusSubject.next (applyPrinterFields s.printerStatus c) := by
  unfold extractPrinterStatusS
  dsimp only
  split_ifs <;> simp [extractPrinterEventS_printerStatusSubject]

theorem extractPrinterStatusS_lastState_of_ne {s : ServiceState} (c : CurrentFrame)
    (h : s.lastState ≠ PrinterEvent.UNKNOWN) :
    (extractPrinterStatusS s c).lastState = s.lastState := by
  unfold extractPrinterStatusS
  dsimp only
  split_ifs with h1 h2
  · exact absurd h1.2 h
  · exact absurd h2.2 h
  · simp

theorem extractPrinterStatusS_eventSubject_of_ne {s : ServiceState} (c : CurrentFrame)
    (h : s.lastState ≠ PrinterEvent.UNKNOWN) :
    (extractPrinterStatusS s c).eventSubject = s.eventSubject := by
  unfold extractPrinterStatusS
  dsimp only
  split_ifs with h1 h2
  · exact absurd h1.2 h
  · exact absurd h2.2 h
  · simp

theorem applyJobFields_file (ext : Externals) (dlp : Bool) (now : ℤ)
    (js : JobStatus) (c : CurrentFrame) :
    (applyJobFields ext dlp now js c).file = frameFile c := by
  unfold applyJobFields
  dsimp only
  cases c.filament <;> cases c.printTimeLeft <;> cases c.estimatedPrintTime <;>
    cases dlp <;> cases c.currentZ <;> dsimp only <;> split_ifs <;> rfl

theorem applyJobFields_fullPath (ext : Externals) (dlp : Bool) (now : ℤ)
    (js : JobStatus) (c : CurrentFrame) :
    (applyJobFields ext dlp now js c).fullPath
      = some ("/" ++ jsCoerceStr c.jobFileOrigin ++ "/" ++ jsCoerceStr c.jobFilePath) := by
  unfold applyJobFields
  dsimp only
  cases c.filament <;> cases c.printTimeLeft <;> cases c.estimatedPrintTime <;>
    cases dlp <;> cases c.currentZ <;> dsimp only <;> split_ifs <;> rfl

theorem applyJobFields_progress (ext : Externals) (dlp : Bool) (now : ℤ)
    (js : JobStatus) (c : CurrentFrame) :
    (applyJobFields ext dlp now js c).progress = jsRound c.completion := by
  unfold applyJobFields
  dsimp only
  cases c.filament <;> cases c.printTimeLeft <;> cases c.estimatedPrintTime <;>
    cases dlp <;> cases c.currentZ <;> dsimp only <;> split_ifs <;> rfl

theorem applyJobFields_timePrinted (ext : Externals) (dlp : Bool) (now : ℤ)
    (js : JobStatus) (c : CurrentFrame) :
    (applyJobFields ext dlp now js c).timePrinted
      = some { value := ext.convertSecondsToHours c.printTime, unit := some "h" } := by
  unfold applyJobFields
  dsimp only
  cases c.filament <;> cases c.printTimeLeft <;> cases c.estimatedPrintTime <;>
    cases dlp <;> cases c.currentZ <;> dsimp only <;> split_ifs <;> rfl

theorem applyJobFields_filamentAmount (ext : Externals) (dlp : Bool) (now : ℤ)
    (js : JobStatus) (c : CurrentFrame) (h : c.filament = none) :
    (applyJobFields ext dlp now js c).filamentAmount = js.filamentAmount := by
  unfold applyJobFields
  rw [h]
  dsimp only
  cases c.printTimeLeft <;> cases c.estimatedPrintTime <;>
    cases dlp <;> cases c.currentZ <;> dsimp only <;> split_ifs <;> rfl

theorem applyJobFields_filament_some (ext : Externals) (dlp : Bool) (now : ℤ)
    (js : JobStatus) (c : CurrentFrame) (f : List ℚ) (h : c.filament = some f) :
    (applyJobFields ext dlp now js c).filamentAmount = getTotalFilamentWeight ext f := by
  unfold applyJobFields
  rw [h]
  dsimp only
  cases c.printTimeLeft <;> cases c.estimatedPrintTime <;>
    cases dlp <;> cases c.currentZ <;> dsimp only <;> split_ifs <;> rfl

theorem applyJobFields_timeLeft (ext : Externals) (dlp : Bool) (now : ℤ)
    (js : JobStatus) (c : CurrentFrame) (h : c.printTimeLeft = none) :
    (applyJobFields ext dlp now js c).timeLeft = js.timeLeft
      ∧ (applyJobFields ext dlp now js c).estimatedEndTime = js.estimatedEndTime := by
  unfold applyJobFields
  rw [h]
  dsimp only
  cases c.filament <;> cases c.estimatedPrintTime <;>
    cases dlp <;> cases c.currentZ <;> dsimp only <;> split_ifs <;> exact ⟨rfl, rfl⟩

theorem applyJobFields_timeLeft_zero (ext : Externals) (dlp : Bool) (now : ℤ)
    (js : JobStatus) (c : CurrentFrame) (h : c.printTimeLeft = some 0) :
    (applyJobFields ext dlp now js c).timeLeft = js.timeLeft
      ∧ (applyJobFields ext dlp now js c).estimatedEndTime = js.estimatedEndTime := by
  unfold applyJobFields
  rw [h]
  dsimp only
  cases c.filament <;> cases c.estimatedPrintTime <;>
    cases dlp <;> cases c.currentZ <;> dsimp only <;> split_ifs <;> simp_all

theorem applyJobFields_timeLeft_pos (ext : Externals) (dlp : Bool) (now : ℤ)
    (js : JobStatus) (c : CurrentFrame) (v : ℤ) (h : c.printTimeLeft = some v)
    (hv : v ≠ 0) :
    (applyJobFields ext dlp now js c).timeLeft
        = { value := ext.convertSecondsToHours v, unit := some "h" }
      ∧ (applyJobFields ext dlp now js c).estimatedEndTime
        = some (calculateEndTime now v) := by
  unfold applyJobFields
  rw [h]
  dsimp only
  cases c.filament <;> cases c.estimatedPrintTime <;>
    cases dlp <;> cases c.currentZ <;> dsimp only <;> split_ifs <;> simp_all

theorem applyJobFields_estimatedPrintTime (ext : Externals) (dlp : Bool) (now : ℤ)
    (js : JobStatus) (c : CurrentFrame) (h : c.estimatedPrintTime = none) :
    (applyJobFields ext dlp now js c).estimatedPrintTime = js.estimatedPrintTime := by
  unfold applyJobFields
  rw [h]
  dsimp only
  cases c.filament <;> cases c.printTimeLeft <;>
    cases dlp <;> cases c.currentZ <;> dsimp only <;> split_ifs <;> rfl

theorem applyJobFields_ept_zero (ext : Externals) (dlp : Bool) (now : ℤ)
    (js : JobStatus) (c : CurrentFrame) (h : c.estimatedPrintTime = some 0) :
    (applyJobFields ext dlp now js c).estimatedPrintTime = js.estimatedPrintTime := by
  unfold applyJobFields
  rw [h]
  dsimp only
  cases c.filament <;> cases c.printTimeLeft <;>
    cases dlp <;> cases c.currentZ <;> dsimp only <;> split_ifs <;> simp_all

theorem applyJobFields_ept_pos (ext : Externals) (dlp : Bool) (now : ℤ)
    (js : JobStatus) (c : CurrentFrame) (v : ℤ) (h : c.estimatedPrintTime = some v)
    (hv : v ≠ 0) :
    (applyJobFields ext dlp now js c).estimatedPrintTime
      = some { value := ext.convertSecondsToHours v, unit := some "h" } := by
  unfold applyJobFields
  rw [h]
  dsimp only
  cases c.filament <;> cases c.printTimeLeft <;>
    cases dlp <;> cases c.currentZ <;> dsimp only <;> split_ifs <;> simp_all

theorem applyJobFields_zHeight (ext : Externals) (now : ℤ)
    (js : JobStatus) (c : CurrentFrame) (h : c.currentZ = none) :
    (applyJobFields ext false now js c).zHeight = js.zHeight := by
  unfold applyJobFields
  rw [h]
  dsimp only
  cases c.filament <;> cases c.printTimeLeft <;> cases c.estimatedPrintTime <;>
    dsimp only <;> split_ifs <;> rfl

theorem applyJobFields_zHeight_dlp (ext : Externals) (now : ℤ)
    (js : JobStatus) (c : CurrentFrame) :
    (applyJobFields ext true now js c).zHeight = js.zHeight := by
  unfold applyJobFields
  dsimp only
  cases c.filament <;> cases c.printTimeLeft <;> cases c.estimatedPrintTime <;>
    cases c.currentZ <;> dsimp only <;> split_ifs <;> simp_all

theorem applyJobFields_zHeight_zero (ext : Externals) (now : ℤ)
    (js : JobStatus) (c : CurrentFrame) (h : c.currentZ = some 0) :
    (applyJobFields ext false now js c).zHeight = js.zHeight := by
  unfold applyJobFields
  rw [h]
  dsimp only
  cases c.filament <;> cases c.printTimeLeft <;> cases c.estimatedPrintTime <;>
    dsimp only <;> split_ifs <;> simp_all

theorem applyJobFields_zHeight_pos (ext : Externals) (now : ℤ)
    (js : JobStatus) (c : CurrentFrame) (z : ℚ) (h : c.currentZ = some z)
    (hz : z ≠ 0) :
    (applyJobFields ext false now js c).zHeight = ZHeight.plain z := by
  unfold applyJobFields
  rw [h]
  dsimp only
  cases c.filament <;> cases c.printTimeLeft <;> cases c.estimatedPrintTime <;>
    dsimp only <;> split_ifs <;> simp_all

theorem applyJobFields_idem (ext : Externals) (dlp : Bool) (now : ℤ)
    (js : JobStatus) (c : CurrentFrame) :
    applyJobFields ext dlp now (applyJobFields ext dlp now js c) c
      = applyJobFields ext dlp now js c := by
  refine JobStatus.ext ?_ ?_ ?_ ?_ ?_ ?_ ?_ ?_ ?_
  · rw [applyJobFields_file, applyJobFields_file]
  · rw [applyJobFields_fullPath, applyJobFields_fullPath]
  · rw [applyJobFields_progress, applyJobFields_progress]
  · cases dlp with
    | true => rw [applyJobFields_zHeight_dlp]
    | false =>
      cases hz : c.currentZ with
      | none => rw [applyJobFields_zHeight ext now _ c hz]
      | some z =>
        by_cases hz0 : z = 0
        · subst hz0
          rw [applyJobFields_zHeight_zero ext now _ c hz]
        · rw [applyJobFields_zHeight_pos ext now _ c z hz hz0,
            applyJobFields_zHeight_pos ext now js c z hz hz0]
  · cases hf : c.filament with
    | none => rw [applyJobFields_filamentAmount ext dlp now _ c hf]
    | some f =>
      rw [applyJobFields_filament_some ext dlp now _ c f hf,
        applyJobFields_filament_some ext dlp now js c f hf]
  · rw [applyJobFields_timePrinted, applyJobFields_timePrinted]
  · cases hl : c.printTimeLeft with
    | none => rw [(applyJobFields_timeLeft ext dlp now _ c hl).1]
    | some v =>
      by_cases hv : v = 0
      · subst hv
        rw [(applyJobFields_timeLeft_zero ext dlp now _ c hl).1]
      · rw [(applyJobFields_timeLeft_pos ext dlp now _ c v hl hv).1,
          (applyJobFields_timeLeft_pos ext dlp now js c v hl hv).1]
  · cases he : c.estimatedPrintTime with
    | none => rw [applyJobFields_estimatedPrintTime ext dlp now _ c he]
    | some v =>
      by_cases hv : v = 0
      · subst hv
        rw [applyJobFields_ept_zero ext dlp now _ c he]
      · rw [applyJobFields_ept_pos ext dlp now _ c v he hv,
          applyJobFields_ept_pos ext dlp now js c v he hv]
  · cases hl : c.printTimeLeft with
    | none => rw [(applyJobFields_timeLeft ext dlp now _ c hl).2]
    | some v =>
      by_cases hv : v = 0
      · subst hv
        rw [(applyJobFields_timeLeft_zero ext dlp now _ c hl).2]
      · rw [(applyJobFields_timeLeft_pos ext dlp now _ c v hl hv).2,
          (applyJobFields_timeLeft_pos ext dlp now js c v hl hv).2]

theorem extractJobStatus_of_ne (ext : Externals) (dlp : Bool) (now : ℤ)
    (js : JobStatus) (c : CurrentFrame) (h : js.file ≠ frameFile c) :
    extractJobStatus ext dlp now js c = applyJobFields ext dlp now (initJobStatus dlp) c := by
  unfold extractJobStatus
  rw [if_pos h]

theorem extractJobStatus_of_eq (ext : Externals) (dlp : Bool) (now : ℤ)
    (js : JobStatus) (c : CurrentFrame) (h : js.file = frameFile c) :
    extractJobStatus ext dlp now js c = applyJobFields ext dlp now js c := by
  unfold extractJobStatus
  rw [if_neg (by simpa using h)]

theorem extractJobStatus_file (ext : Externals) (dlp : Bool) (now : ℤ)
    (js : JobStatus) (c : CurrentFrame) :
    (extractJobStatus ext dlp now js c).file = frameFile c := by
  unfold extractJobStatus
  split_ifs <;> rw [applyJobFields_file]

theorem extractJobStatus_idem (ext : Externals) (dlp : Bool) (now : ℤ)
    (js : JobStatus) (c : CurrentFrame) :
    extractJobStatus ext dlp now (extractJobStatus ext dlp now js c) c
      = extractJobStatus ext dlp now js c := by
  rw [extractJobStatus_of_eq ext dlp now (extractJobStatus ext dlp now js c) c
    (extractJobStatus_file ext dlp now js c)]
  unfold extractJobStatus
  split_ifs <;> rw [applyJobFields_idem]

theorem extractJobStatusS_def (ext : Externals) (dlp : Bool) (now : ℤ)
    (s : ServiceState) (c : CurrentFrame) :
    extractJobStatusS ext dlp now s c
      = { s with
          jobStatus := extractJobStatus ext dlp now s.jobStatus c
          jobStatusSubject :=
            s.jobStatusSubject.next (extractJobStatus ext dlp now s.jobStatus c) } := rfl

theorem processFrame_current (ext : Externals) (dlp : Bool) (now : ℤ)
    (s : ServiceState) (c : CurrentFrame) :
    processFrame ext dlp s (now, RawFrame.current c)
      = extractJobStatusS ext dlp now (extractPrinterStatusS s c) c := rfl

theorem processFrame_fastInterval (ext : Externals) (dlp : Bool) (s : ServiceState)
    (p : ℤ × RawFrame) : (processFrame ext dlp s p).fastInterval = s.fastInterval := by
  obtain ⟨now, f⟩ := p
  cases f with
  | current c =>
    rw [processFrame_current, extractJobStatusS_def]
    exact extractPrinterStatusS_fastInterval s c
  | event t => exact extractPrinterEventS_fastInterval s t
  | plugin pid d =>
    unfold processFrame
    dsimp only
    split_ifs <;> rfl
  | reauth => rfl
  | connected => rfl

theorem processFrame_lastState_ne_UNKNOWN (ext : Externals) (dlp : Bool)
    {s : ServiceState} (p : ℤ × RawFrame) (h : s.lastState ≠ PrinterEvent.UNKNOWN) :
    (processFrame ext dlp s p).lastState ≠ PrinterEvent.UNKNOWN := by
  obtain ⟨now, f⟩ := p
  cases f with
  | current c =>
    rw [processFrame_current, extractJobStatusS_def]
    dsimp only
    rw [extractPrinterStatusS_lastState_of_ne c h]
    exact h
  | event t => exact extractPrinterEventS_lastState_ne_UNKNOWN t h
  | plugin pid d =>
    unfold processFrame
    dsimp only
    split_ifs <;> exact h
  | reauth => exact h
  | connected => exact h

theorem step_lastState_ne_UNKNOWN (ext : Externals) (dlp : Bool) {s : ServiceState}
    {op : SessionOp} (hop : op ≠ SessionOp.connectOp)
    (h : s.lastState ≠ PrinterEvent.UNKNOWN) :
    (step ext dlp s op).lastState ≠ PrinterEvent.UNKNOWN := by
  cases op with
  | connectOp => exact absurd rfl hop
  | credFail => exact h
  | frame now f => exact processFrame_lastState_ne_UNKNOWN ext dlp (now, f) h
  | connectionCheckClosed => exact h

theorem runOps_lastState_ne_UNKNOWN (ext : Externals) (dlp : Bool) {s : ServiceState}
    {ops : List SessionOp} (hops : SessionOp.connectOp ∉ ops)
    (h : s.lastState ≠ PrinterEvent.UNKNOWN) :
    (runOps ext dlp s ops).lastState ≠ PrinterEvent.UNKNOWN := by
  induction ops generalizing s with
  | nil => exact h
  | cons op rest ih =>
    have h1 : op ≠ SessionOp.connectOp := fun he => hops (he ▸ List.mem_cons_self op rest)
    have h2 : SessionOp.connectOp ∉ rest := fun hm => hops (List.mem_cons_of_mem op hm)
    exact ih h2 (step_lastState_ne_UNKNOWN ext dlp h1 h)

theorem step_fastInterval (ext : Externals) (dlp : Bool) (s : ServiceState)
    (op : SessionOp) :
    (step ext dlp s op).fastInterval
      = if op = SessionOp.credFail then s.fastInterval + 1 else s.fastInterval := by
  cases op with
  | connectOp => rfl
  | credFail => rfl
  | frame now f => simpa using processFrame_fastInterval ext dlp s (now, f)
  | connectionCheckClosed => rfl

theorem runOps_fastInterval (ext : Externals) (dlp : Bool) (s : ServiceState)
    (ops : List SessionOp) :
    (runOps ext dlp s ops).fastInterval = s.fastInterval + countCredFails ops := by
  induction ops generalizing s with
  | nil => rfl
  | cons op rest ih =>
    show (runOps ext dlp (step ext dlp s op) rest).fastInterval = _
    rw [ih, step_fastInterval]
    cases op with
    | credFail => simp [countCredFails]; omega
    | connectOp => simp [countCredFails]
    | frame now f => simp [countCredFails]
    | connectionCheckClosed => simp [countCredFails]

theorem runOps_append (ext : Externals) (dlp : Bool) (s : ServiceState)
    (as bs : List SessionOp) :
    runOps ext dlp s (as ++ bs) = runOps ext dlp (runOps ext dlp s as) bs := by
  induction as generalizing s with
  | nil => rfl
  | cons a rest ih => exact ih (step ext dlp s a)

theorem failureDelays_length (s : ServiceState) (n : ℕ) :
    (failureDelays s n).length = n := by
  induction n generalizing s with
  | zero => rfl
  | succ m ih => simpa [failureDelays] using ih (credFailStep s)

theorem ReplaySubject.next_buffer {α : Type} (r : ReplaySubject α) (v : α) :
    (r.next v).buffer = r.buffer ++ [v] := rfl

theorem printerStateLookup_name (cse : PrinterState) :
    printerStateLookup (printerStateName cse) = some cse := by
  cases cse <;> decide

theorem extractPrinterStatusS_sync_printing {s : ServiceState} (c : CurrentFrame)
    (hU : s.lastState = PrinterEvent.UNKNOWN)
    (hlook : printerStateLookup (jsToLower c.stateText) = some PrinterState.printing) :
    (extractPrinterStatusS s c).lastState = PrinterEvent.PRINTING
      ∧ (extractPrinterStatusS s c).eventSubject
        = s.eventSubject.next PrinterEvent.PRINTING := by
  have h1 : (applyPrinterFields s.printerStatus c).status = some PrinterState.printing :=
    (applyPrinterFields_status s.printerStatus c).trans hlook
  unfold extractPrinterStatusS
  dsimp only
  rw [if_pos ⟨h1, hU⟩,
    extractPrinterEventS_some
      (show eventFromType "PrintStarted" = some PrinterEvent.PRINTING by decide)]
  exact ⟨rfl, rfl⟩

theorem extractPrinterStatusS_sync_paused {s : ServiceState} (c : CurrentFrame)
    (hU : s.lastState = PrinterEvent.UNKNOWN)
    (hlook : printerStateLookup (jsToLower c.stateText) = some PrinterState.paused) :
    (extractPrinterStatusS s c).lastState = PrinterEvent.PAUSED
      ∧ (extractPrinterStatusS s c).eventSubject
        = s.eventSubject.next PrinterEvent.PAUSED := by
  have h1 : (applyPrinterFields s.printerStatus c).status = some PrinterState.paused :=
    (applyPrinterFields_status s.printerStatus c).trans hlook
  unfold extractPrinterStatusS
  dsimp only
  rw [if_neg (by simp [h1]), if_pos ⟨h1, hU⟩,
    extractPrinterEventS_some
      (show eventFromType "PrintPaused" = some PrinterEvent.PAUSED by decide)]
  exact ⟨rfl, rfl⟩

theorem runCurrents_absorb (ext : Externals) (dlp : Bool) {s : ServiceState}
    (frames : List (ℤ × CurrentFrame)) (h : s.lastState ≠ PrinterEvent.UNKNOWN) :
    (runCurrents ext dlp s frames).eventSubject = s.eventSubject
      ∧ (runCurrents ext dlp s frames).lastState = s.lastState := by
  induction frames generalizing s with
  | nil => exact ⟨rfl, rfl⟩
  | cons p rest ih =>
    obtain ⟨now, c⟩ := p
    have hstep : processFrame ext dlp s (now, RawFrame.current c)
        = extractJobStatusS ext dlp now (extractPrinterStatusS s c) c := rfl
    have hev : (processFrame ext dlp s (now, RawFrame.current c)).eventSubject
        = s.eventSubject := by
      rw [hstep, extractJobStatusS_def]
      exact extractPrinterStatusS_eventSubject_of_ne c h
    have hls : (processFrame ext dlp s (now, RawFrame.current c)).lastState
        = s.lastState := by
      rw [hstep, extractJobStatusS_def]
      exact extractPrinterStatusS_lastState_of_ne c h
    have h2 : (processFrame ext dlp s (now, RawFrame.current c)).lastState
        ≠ PrinterEvent.UNKNOWN := by
      rw [hls]; exact h
    have := ih h2
    refine ⟨?_, ?_⟩
    · show (runCurrents ext dlp (processFrame ext dlp s (now, RawFrame.current c)) rest).eventSubject = _
      rw [this.1, hev]
    · show (runCurrents ext dlp (processFrame ext dlp s (now, RawFrame.current c)) rest).lastState = _
      rw [this.2, hls]

theorem failureDelays_getD (s : ServiceState) (n k : ℕ) (hk : k < n) :
    (failureDelays s n).getD k 0
      = if s.fastInterval + k < 6 then 5000 else 15000 := by
  induction n generalizing s k with
  | zero => omega
  | succ m ih =>
    cases k with
    | zero =>
      simp [failureDelays, credFailDelay]
    | succ j =>
      have hj : j < m := by omega
      have := ih (credFailStep s) j hj
      simp only [failureDelays, List.getD_cons_succ]
      rw [this]
      have : (credFailStep s).fastInterval = s.fastInterval + 1 := rfl
      rw [this]
      congr 1
      simp only [eq_iff_iff]
      omega

/-!
## Claims
-/

/-- C1, counterexample: the claim says a subscriber that subscribes after an
event has been published receives no previously published event, i.e. the
immediate delivery at subscription time is empty. But `eventSubject` is a
no-argument `ReplaySubject` (line 42), so after one `PrintStarted` event a
new subscriber immediately receives `PRINTING`. -/
theorem C1_counterexample :
    ReplaySubject.subscribeDelivers
        (getEventSubscribable
          (step demoExt false demoState (SessionOp.frame 0 (RawFrame.event "PrintStarted"))))
      = [PrinterEvent.PRINTING]
    ∧ ReplaySubject.subscribeDelivers
        (getEventSubscribable
          (step demoExt false demoState (SessionOp.frame 0 (RawFrame.event "PrintStarted"))))
      ≠ ([] : List PrinterEvent) := by
  decide

/-- C1, amended: the event subscribable returned by `getEventSubscribable`
replays: publishing a recognized event appends it to the history a later
subscriber receives in full at subscription time, so a subscriber that
subscribes after events have been published receives every previously
published event, in order, before any later ones. -/
theorem C1_event_subscribable_replays (s : ServiceState) (t : String)
    (e : PrinterEvent) (h : eventFromType t = some e) :
    ReplaySubject.subscribeDelivers (getEventSubscribable (extractPrinterEventS s t))
      = ReplaySubject.subscribeDelivers (getEventSubscribable s) ++ [e] := by
  rw [extractPrinterEventS_some h]
  rfl

/-- C1, witness for the amended theorem at a concrete input. -/
theorem C1_witness :
    ReplaySubject.subscribeDelivers
        (getEventSubscribable (extractPrinterEventS demoState "Connected"))
      = ReplaySubject.subscribeDelivers (getEventSubscribable demoState)
        ++ [PrinterEvent.CONNECTED] :=
  C1_event_subscribable_replays demoState "Connected" PrinterEvent.CONNECTED (by decide)

/-- C2, counterexample: the claim promises that within one connection
session the first retry of a failure sequence is scheduled with a 5-second
delay; but after six failures and a fresh `connect()`, the first retry of
the new session is scheduled with 15000 ms, because `fastInterval` is never
reset. -/
theorem C2_counterexample :
    credFailDelay
        (runOps demoExt false (mkService false)
          [SessionOp.connectOp, SessionOp.credFail, SessionOp.credFail, SessionOp.credFail,
            SessionOp.credFail, SessionOp.credFail, SessionOp.credFail, SessionOp.connectOp])
      = 15000
    ∧ (15000 : ℕ) ≠ 5000 := by
  decide

/-- C2, amended: the delay of each credential-fetch retry is determined by
the lifetime total of failures, not a per-session count: after any history
of `ops`, the next `n` consecutive failures are all scheduled (no maximum
count), the `k`-th of them with 5000 ms when fewer than 6 failures have
ever occurred before it and with 15000 ms from the 6th lifetime failure
onward. In a fresh service this gives the first 6 attempts 5 s and the 7th
onward 15 s, as the spec says. -/
theorem C2_retry_delay_ladder (ext : Externals) (dlp : Bool) (ops : List SessionOp)
    (n k : ℕ) (hk : k < n) :
    (failureDelays (runOps ext dlp (mkService dlp) ops) n).length = n
    ∧ (failureDelays (runOps ext dlp (mkService dlp) ops) n).getD k 0
        = if countCredFails ops + k < 6 then 5000 else 15000 := by
  constructor
  · exact failureDelays_length _ n
  · rw [failureDelays_getD _ n k hk, runOps_fastInterval]
    have h0 : (mkService dlp).fastInterval = 0 := rfl
    rw [h0]
    simp

/-- C2, witness for the amended theorem at a concrete input. -/
theorem C2_witness :
    (failureDelays (runOps demoExt false (mkService false) [SessionOp.credFail]) 7).length = 7
    ∧ (failureDelays (runOps demoExt false (mkService false) [SessionOp.credFail]) 7).getD 6 0
        = if countCredFails [SessionOp.credFail] + 6 < 6 then 5000 else 15000 :=
  C2_retry_delay_ladder demoExt false [SessionOp.credFail] 7 6 (by decide)

/-- C3: when the tracked file name is `A` and the frame names a different
file `B`, the job status is first reset to defaults and then the frame's
fields are applied: the result equals processing the frame from the default
record, and every optional field absent from the frame keeps its default
value. -/
theorem C3_new_file_resets (ext : Externals) (dlp : Bool) (now : ℤ)
    (js : JobStatus) (c : CurrentFrame) (A B : String)
    (hA : js.file = some A) (hB : frameFile c = some B) (hAB : A ≠ B) :
    extractJobStatus ext dlp now js c = extractJobStatus ext dlp now (initJobStatus dlp) c
    ∧ (c.filament = none →
        (extractJobStatus ext dlp now js c).filamentAmount
          = (initJobStatus dlp).filamentAmount)
    ∧ (c.printTimeLeft = none →
        (extractJobStatus ext dlp now js c).timeLeft = (initJobStatus dlp).timeLeft
        ∧ (extractJobStatus ext dlp now js c).estimatedEndTime
          = (initJobStatus dlp).estimatedEndTime)
    ∧ (c.estimatedPrintTime = none →
        (extractJobStatus ext dlp now js c).estimatedPrintTime
          = (initJobStatus dlp).estimatedPrintTime)
    ∧ (dlp = false → c.currentZ = none →
        (extractJobStatus ext dlp now js c).zHeight = (initJobStatus dlp).zHeight) := by
  have hne : js.file ≠ frameFile c := by
    rw [hA, hB]
    simp [hAB]
  have hmain : extractJobStatus ext dlp now js c
      = applyJobFields ext dlp now (initJobStatus dlp) c :=
    extractJobStatus_of_ne ext dlp now js c hne
  have hinitfile : (initJobStatus dlp).file = none := by
    unfold initJobStatus
    split_ifs <;> rfl
  have hinit : extractJobStatus ext dlp now (initJobStatus dlp) c
      = applyJobFields ext dlp now (initJobStatus dlp) c :=
    extractJobStatus_of_ne ext dlp now _ c (by rw [hinitfile, hB]; simp)
  refine ⟨hmain.trans hinit.symm, fun h => ?_, fun h => ?_, fun h => ?_, fun hdlp h => ?_⟩
  · rw [hmain]
    exact applyJobFields_filamentAmount ext dlp now _ c h
  · rw [hmain]
    exact applyJobFields_timeLeft ext dlp now _ c h
  · rw [hmain]
    exact applyJobFields_estimatedPrintTime ext dlp now _ c h
  · subst hdlp
    rw [hmain]
    exact applyJobFields_zHeight ext now _ c h

/-- C3, witness at a concrete input. -/
theorem C3_witness :
    extractJobStatus demoExt false 0
        { initJobStatus false with file := some "A", filamentAmount := 42 } demoFrameBare
      = extractJobStatus demoExt false 0 (initJobStatus false) demoFrameBare :=
  (C3_new_file_resets demoExt false 0
    { initJobStatus false with file := some "A", filamentAmount := 42 } demoFrameBare
    "A" "B" rfl (by decide) (by decide)).1

/-- C4: the event inference engine maps raw event type strings exactly per
the transition table; on a recognized type it overwrites the stored last
event and publishes the value; on any string outside the nine recognized
ones it maps to `none` and leaves the whole state unchanged. -/
theorem C4_event_transition_table (s : ServiceState) (t : String) :
    (eventFromType "PrintStarted" = some PrinterEvent.PRINTING
      ∧ eventFromType "PrintResumed" = some PrinterEvent.PRINTING
      ∧ eventFromType "PrintPaused" = some PrinterEvent.PAUSED
      ∧ eventFromType "PrintFailed" = some PrinterEvent.IDLE
      ∧ eventFromType "PrintDone" = some PrinterEvent.IDLE
      ∧ eventFromType "PrintCancelled" = some PrinterEvent.IDLE
      ∧ eventFromType "Connected" = some PrinterEvent.CONNECTED
      ∧ eventFromType "Disconnected" = some PrinterEvent.CLOSED
      ∧ eventFromType "Error" = some PrinterEvent.CLOSED)
    ∧ (∀ e : PrinterEvent, eventFromType t = some e →
        extractPrinterEventS s t
          = { s with lastState := e, eventSubject := s.eventSubject.next e })
    ∧ (t ∉ (["PrintStarted", "PrintResumed", "PrintPaused", "PrintFailed", "PrintDone",
          "PrintCancelled", "Connected", "Disconnected", "Error"] : List String) →
        eventFromType t = none ∧ extractPrinterEventS s t = s) := by
  refine ⟨by decide, fun e h => extractPrinterEventS_some h, fun hmem => ?_⟩
  have hnone : eventFromType t = none := by
    unfold eventFromType
    split_ifs with h1 h2 h3 h4 h5 h6 h7 h8 h9 <;>
      first
      | rfl
      | (exact absurd (by simp_all) hmem)
  exact ⟨hnone, extractPrinterEventS_none hnone⟩

/-- C4, witness at concrete inputs: a recognized and an unrecognized type. -/
theorem C4_witness :
    extractPrinterEventS demoState "Bogus" = demoState
    ∧ extractPrinterEventS demoState "PrintPaused"
        = { demoState with
            lastState := PrinterEvent.PAUSED
            eventSubject := demoState.eventSubject.next PrinterEvent.PAUSED } :=
  ⟨((C4_event_transition_table demoState "Bogus").2.2 (by decide)).2,
    (C4_event_transition_table demoState "PrintPaused").2.1 PrinterEvent.PAUSED (by decide)⟩

/-- C5: with the last event `UNKNOWN`, processing a run of `current` frames
that all carry the printing (resp. paused) machine state synthesizes one
`PrintStarted` (resp. `PrintPaused`) event: `PRINTING` (resp. `PAUSED`) is
published exactly once across the whole run, and the last event ends up
equal to it (so no longer `UNKNOWN`). -/
theorem C5_sync_event_once (ext : Externals) (dlp : Bool) (s : ServiceState)
    (frames : List (ℤ × CurrentFrame)) (now : ℤ) (c : CurrentFrame)
    (tgt : PrinterState) (ev : PrinterEvent)
    (hU : s.lastState = PrinterEvent.UNKNOWN)
    (hcase : (tgt = PrinterState.printing ∧ ev = PrinterEvent.PRINTING)
      ∨ (tgt = PrinterState.paused ∧ ev = PrinterEvent.PAUSED))
    (hall : ∀ p ∈ (now, c) :: frames,
      printerStateLookup (jsToLower (Prod.snd p).stateText) = some tgt) :
    (runCurrents ext dlp s ((now, c) :: frames)).eventSubject.buffer
        = s.eventSubject.buffer ++ [ev]
    ∧ (runCurrents ext dlp s ((now, c) :: frames)).lastState = ev := by
  have hc : printerStateLookup (jsToLower c.stateText) = some tgt :=
    hall (now, c) (List.mem_cons_self _ _)
  have hfirst : (processFrame ext dlp s (now, RawFrame.current c)).lastState = ev
      ∧ (processFrame ext dlp s (now, RawFrame.current c)).eventSubject
        = s.eventSubject.next ev := by
    have hstep : processFrame ext dlp s (now, RawFrame.current c)
        = extractJobStatusS ext dlp now (extractPrinterStatusS s c) c := rfl
    rcases hcase with ⟨ht, he⟩ | ⟨ht, he⟩ <;> subst ht <;> subst he
    · have hsync := extractPrinterStatusS_sync_printing c hU hc
      rw [hstep, extractJobStatusS_def]
      exact ⟨hsync.1, hsync.2⟩
    · have hsync := extractPrinterStatusS_sync_paused c hU hc
      rw [hstep, extractJobStatusS_def]
      exact ⟨hsync.1, hsync.2⟩
  have hev_ne : ev ≠ PrinterEvent.UNKNOWN := by
    rcases hcase with ⟨-, he⟩ | ⟨-, he⟩ <;> subst he <;> decide
  have habs := runCurrents_absorb ext dlp frames (hfirst.1.symm ▸ hev_ne)
  refine ⟨?_, ?_⟩
  · show (runCurrents ext dlp (processFrame ext dlp s (now, RawFrame.current c))
        frames).eventSubject.buffer = _
    rw [habs.1, hfirst.2]
    rfl
  · show (runCurrents ext dlp (processFrame ext dlp s (now, RawFrame.current c))
        frames).lastState = _
    rw [habs.2, hfirst.1]

/-- C5, witness: two identical printing frames from a fresh state publish
`PRINTING` exactly once. -/
theorem C5_witness :
    (runCurrents demoExt false demoState [(0, demoFrame), (1, demoFrame)]).eventSubject.buffer
        = demoState.eventSubject.buffer ++ [PrinterEvent.PRINTING]
    ∧ (runCurrents demoExt false demoState [(0, demoFrame), (1, demoFrame)]).lastState
        = PrinterEvent.PRINTING :=
  C5_sync_event_once demoExt false demoState [(1, demoFrame)] 0 demoFrame
    PrinterState.printing PrinterEvent.PRINTING rfl (Or.inl ⟨rfl, rfl⟩) (by decide)

/-- C6, counterexample: the claim quantifies over every `current` frame,
but when the frame names a new file the reset zeroes the optional fields
even though they are absent from the frame: here `filamentAmount` falls
from 42 to 0 although the frame carries no filament data. -/
theorem C6_counterexample :
    ({ initJobStatus false with file := some "A", filamentAmount := 42 }
        : JobStatus).filamentAmount = 42
    ∧ demoFrameBare.filament = none
    ∧ (extractJobStatus demoExt false 0
        { initJobStatus false with file := some "A", filamentAmount := 42 }
        demoFrameBare).filamentAmount = 0
    ∧ ((0 : ℚ) ≠ 42) := by
  decide

/-- C6, amended: provided the frame names the currently tracked file (so no
new-file reset occurs), each absent optional field — filament data,
remaining print time, total estimated print time, and, with layer-progress
tracking disabled, `currentZ` — leaves the corresponding job status field
unchanged. -/
theorem C6_absent_optionals_preserved (ext : Externals) (dlp : Bool) (now : ℤ)
    (js : JobStatus) (c : CurrentFrame) (hfile : js.file = frameFile c) :
    (c.filament = none →
      (extractJobStatus ext dlp now js c).filamentAmount = js.filamentAmount)
    ∧ (c.printTimeLeft = none →
      (extractJobStatus ext dlp now js c).timeLeft = js.timeLeft
      ∧ (extractJobStatus ext dlp now js c).estimatedEndTime = js.estimatedEndTime)
    ∧ (c.estimatedPrintTime = none →
      (extractJobStatus ext dlp now js c).estimatedPrintTime = js.estimatedPrintTime)
    ∧ (dlp = false → c.currentZ = none →
      (extractJobStatus ext dlp now js c).zHeight = js.zHeight) := by
  have hmain := extractJobStatus_of_eq ext dlp now js c hfile
  refine ⟨fun h => ?_, fun h => ?_, fun h => ?_, fun hdlp h => ?_⟩
  · rw [hmain]
    exact applyJobFields_filamentAmount ext dlp now js c h
  · rw [hmain]
    exact applyJobFields_timeLeft ext dlp now js c h
  · rw [hmain]
    exact applyJobFields_estimatedPrintTime ext dlp now js c h
  · subst hdlp
    rw [hmain]
    exact applyJobFields_zHeight ext now js c h

/-- C6, witness for the amended theorem at a concrete input. -/
theorem C6_witness :
    (extractJobStatus demoExt false 0
        { initJobStatus false with file := some "B", filamentAmount := 42 }
        demoFrameBare).filamentAmount
      = ({ initJobStatus false with file := some "B", filamentAmount := 42 }
        : JobStatus).filamentAmount :=
  (C6_absent_optionals_preserved demoExt false 0
    { initJobStatus false with file := some "B", filamentAmount := 42 }
    demoFrameBare (by decide)).1 rfl

/-- C7: feeding the identical `current` frame twice in succession publishes
two printer status records and two job status records, and in each pair the
two published records are equal. -/
theorem C7_idempotent_publication (ext : Externals) (dlp : Bool) (now : ℤ)
    (s : ServiceState) (c : CurrentFrame) :
    (processFrame ext dlp (processFrame ext dlp s (now, RawFrame.current c))
        (now, RawFrame.current c)).printerStatusSubject.buffer
      = s.printerStatusSubject.buffer
        ++ [(processFrame ext dlp s (now, RawFrame.current c)).printerStatus,
          (processFrame ext dlp s (now, RawFrame.current c)).printerStatus]
    ∧ (processFrame ext dlp (processFrame ext dlp s (now, RawFrame.current c))
        (now, RawFrame.current c)).jobStatusSubject.buffer
      = s.jobStatusSubject.buffer
        ++ [(processFrame ext dlp s (now, RawFrame.current c)).jobStatus,
          (processFrame ext dlp s (now, RawFrame.current c)).jobStatus] := by
  have e1 : (processFrame ext dlp s (now, RawFrame.current c)).printerStatus
      = applyPrinterFields s.printerStatus c := by
    rw [processFrame_current, extractJobStatusS_def]
    dsimp only
    exact extractPrinterStatusS_printerStatus s c
  have e2 : (processFrame ext dlp s (now, RawFrame.current c)).printerStatusSubject
      = s.printerStatusSubject.next (applyPrinterFields s.printerStatus c) := by
    rw [processFrame_current, extractJobStatusS_def]
    dsimp only
    exact extractPrinterStatusS_printerStatusSubject s c
  have e3 : (processFrame ext dlp s (now, RawFrame.current c)).jobStatus
      = extractJobStatus ext dlp now s.jobStatus c := by
    rw [processFrame_current, extractJobStatusS_def]
    dsimp only
    rw [extractPrinterStatusS_jobStatus]
  have e4 : (processFrame ext dlp s (now, RawFrame.current c)).jobStatusSubject
      = s.jobStatusSubject.next (extractJobStatus ext dlp now s.jobStatus c) := by
    rw [processFrame_current, extractJobStatusS_def]
    dsimp only
    rw [extractPrinterStatusS_jobStatusSubject, extractPrinterStatusS_jobStatus]
  constructor
  · rw [processFrame_current ext dlp now
      (processFrame ext dlp s (now, RawFrame.current c)) c, extractJobStatusS_def]
    dsimp only
    rw [extractPrinterStatusS_printerStatusSubject, e1, e2, applyPrinterFields_idem]
    simp [ReplaySubject.next_buffer]
  · rw [processFrame_current ext dlp now
      (processFrame ext dlp s (now, RawFrame.current c)) c, extractJobStatusS_def]
    dsimp only
    rw [extractPrinterStatusS_jobStatusSubject, extractPrinterStatusS_jobStatus, e3, e4,
      extractJobStatus_idem]
    simp [ReplaySubject.next_buffer]

/-- C8: a machine-state label that matches a known `PrinterState` case up
to letter casing is mapped to exactly that case in the published printer
status. -/
theorem C8_state_label_case_insensitive (s : ServiceState) (c : CurrentFrame)
    (cse : PrinterState) (h : jsToLower c.stateText = printerStateName cse) :
    (extractPrinterStatusS s c).printerStatus.status = some cse := by
  rw [extractPrinterStatusS_printerStatus, applyPrinterFields_status, h,
    printerStateLookup_name]

/-- C8, witness: label `"Printing"` maps to the `printing` case. -/
theorem C8_witness :
    (extractPrinterStatusS demoState demoFrame).printerStatus.status
      = some PrinterState.printing :=
  C8_state_label_case_insensitive demoState demoFrame PrinterState.printing (by decide)

/-- C9: a `connect()` after any history resets the printer status, the job
status and the last event to their initial values, but the retry counter
keeps the lifetime total of credential-fetch failures, and once 6 failures
have ever occurred the next retry delay is 15000 ms even in the fresh
session. -/
theorem C9_connect_keeps_fastInterval (ext : Externals) (dlp : Bool)
    (ops : List SessionOp) :
    (runOps ext dlp (mkService dlp) (ops ++ [SessionOp.connectOp])).printerStatus
        = initPrinterStatus dlp
    ∧ (runOps ext dlp (mkService dlp) (ops ++ [SessionOp.connectOp])).jobStatus
        = initJobStatus dlp
    ∧ (runOps ext dlp (mkService dlp) (ops ++ [SessionOp.connectOp])).lastState
        = PrinterEvent.UNKNOWN
    ∧ (runOps ext dlp (mkService dlp) (ops ++ [SessionOp.connectOp])).fastInterval
        = countCredFails ops
    ∧ (6 ≤ countCredFails ops →
        credFailDelay (runOps ext dlp (mkService dlp) (ops ++ [SessionOp.connectOp]))
          = 15000) := by
  rw [runOps_append]
  have hc : runOps ext dlp (runOps ext dlp (mkService dlp) ops) [SessionOp.connectOp]
      = connectStep dlp (runOps ext dlp (mkService dlp) ops) := rfl
  rw [hc]
  have hfi : (connectStep dlp (runOps ext dlp (mkService dlp) ops)).fastInterval
      = countCredFails ops := by
    have h1 : (connectStep dlp (runOps ext dlp (mkService dlp) ops)).fastInterval
        = (runOps ext dlp (mkService dlp) ops).fastInterval := rfl
    rw [h1, runOps_fastInterval]
    have h0 : (mkService dlp).fastInterval = 0 := rfl
    rw [h0]
    exact Nat.zero_add _
  refine ⟨rfl, rfl, rfl, hfi, fun h6 => ?_⟩
  unfold credFailDelay
  rw [hfi, if_neg (by omega)]

/-- C9, witness at a concrete input: six failures, then a fresh connect;
the next retry delay is 15 seconds. -/
theorem C9_witness :
    credFailDelay (runOps demoExt false (mkService false)
        ([SessionOp.credFail, SessionOp.credFail, SessionOp.credFail, SessionOp.credFail,
          SessionOp.credFail, SessionOp.credFail] ++ [SessionOp.connectOp])) = 15000 :=
  (C9_connect_keeps_fastInterval demoExt false
    [SessionOp.credFail, SessionOp.credFail, SessionOp.credFail, SessionOp.credFail,
      SessionOp.credFail, SessionOp.credFail]).2.2.2.2 (by decide)

/-- C10: whenever `extractPrinterEvent` publishes an event, the stored last
event equals the published value and is never `UNKNOWN`; consequently, once
the last event is not `UNKNOWN`, no sequence of session actions without a
`connect()` can make it `UNKNOWN` again. -/
theorem C10_lastState_invariant (ext : Externals) (dlp : Bool) (s : ServiceState)
    (t : String) (ops : List SessionOp) :
    (∀ e : PrinterEvent, eventFromType t = some e →
      (extractPrinterEventS s t).lastState = e
      ∧ (extractPrinterEventS s t).eventSubject = s.eventSubject.next e
      ∧ e ≠ PrinterEvent.UNKNOWN)
    ∧ (s.lastState ≠ PrinterEvent.UNKNOWN → SessionOp.connectOp ∉ ops →
      (runOps ext dlp s ops).lastState ≠ PrinterEvent.UNKNOWN) := by
  refine ⟨fun e h => ?_,
    fun h hops => runOps_lastState_ne_UNKNOWN ext dlp hops h⟩
  rw [extractPrinterEventS_some h]
  exact ⟨rfl, rfl, eventFromType_ne_UNKNOWN h⟩

/-- C10, witness at concrete inputs. -/
theorem C10_witness :
    ((extractPrinterEventS demoState "PrintDone").lastState = PrinterEvent.IDLE
      ∧ (extractPrinterEventS demoState "PrintDone").eventSubject
        = demoState.eventSubject.next PrinterEvent.IDLE
      ∧ PrinterEvent.IDLE ≠ PrinterEvent.UNKNOWN)
    ∧ (runOps demoExt false (extractPrinterEventS demoState "PrintDone")
        [SessionOp.credFail, SessionOp.frame 0 (RawFrame.event "Bogus")]).lastState
      ≠ PrinterEvent.UNKNOWN :=
  ⟨(C10_lastState_invariant demoExt false demoState "PrintDone" []).1
      PrinterEvent.IDLE (by decide),
    (C10_lastState_invariant demoExt false (extractPrinterEventS demoState "PrintDone")
      "PrintDone" [SessionOp.credFail, SessionOp.frame 0 (RawFrame.event "Bogus")]).2
      (by decide) (by decide)⟩

end OctoDash
